import Mathlib

/-!
Verification of the IAPserver notification-processing pipeline (src/server.py)
against its natural-language specification.

The development is a shallow embedding of the Python source:

* JSON-like Python values are modelled by `JValue`; Python dicts are
  association lists with unique keys (the only way they arise from JSON).
* Python truthiness, `dict.get`, `dict.update` and `or` are modelled by
  `truthy`, `pyGet`, `pyUpdateM` and `pyOr`.  `dict.update` is modelled
  with its element-wise semantics, including partially applied updates
  that mutate the receiver before raising; the aliasing of `receipt_info`
  into `raw_data` is tracked by `RILoc`/`writeBack`, so a merge mutates
  the document that ends up in `raw_payload`, as it does in CPython.
  Unhashable values (lists, dicts) used as dict keys raise `TypeError`
  (`pyHashable`), which the status resolver and the route's
  `in NOTIFICATION_TYPES` test inherit.
* Code that can raise is modelled in `Except`; a `try/except Exception`
  block is the `match` that catches the `error` case.
* The SQLite stores are modelled at their CRUD interface (the spec treats
  the storage engine as an external collaborator): an append-only
  notification list with autoincrement ids, a subscription table keyed by
  `user_id`, and an append-only webhook log.  Storage failures are injected
  through explicit `DbFaults` flags; the outcome of the outbound webhook
  POST is an explicit `WebhookOutcome` parameter.
-/

namespace IAP

/-- A JSON-like Python value (the payloads handled by the server). -/
inductive JValue where
  | null
  | bool (b : Bool)
  | num (n : Int)
  | str (s : String)
  | arr (xs : List JValue)
  | obj (fields : List (String × JValue))

mutual
/-- Structural equality of `JValue`s (Python `==` on JSON values). -/
def jeq : JValue → JValue → Bool
  | .null, .null => true
  | .bool a, .bool b => a == b
  | .num a, .num b => a == b
  | .str a, .str b => a == b
  | .arr xs, .arr ys => jeqL xs ys
  | .obj xs, .obj ys => jeqF xs ys
  | _, _ => false
def jeqL : List JValue → List JValue → Bool
  | [], [] => true
  | x :: xs, y :: ys => jeq x y && jeqL xs ys
  | _, _ => false
def jeqF : List (String × JValue) → List (String × JValue) → Bool
  | [], [] => true
  | (k, v) :: xs, (k2, v2) :: ys => k == k2 && jeq v v2 && jeqF xs ys
  | _, _ => false
end

/-- Python truthiness of a JSON value (`if x:`). -/
def truthy : JValue → Bool
  | .null => false
  | .bool b => b
  | .num n => n != 0
  | .str s => s != ""
  | .arr xs => !xs.isEmpty
  | .obj fs => !fs.isEmpty

/-- First binding of a key in a dict (Python dicts have unique keys). -/
def lookupJ : List (String × JValue) → String → Option JValue
  | [], _ => none
  | (k, v) :: rest, key => if k = key then some v else lookupJ rest key

/-- Python `x.get(k)`: `None` when the key is absent; raises
(`AttributeError`) when the receiver is not a dict. -/
def pyGet : JValue → String → Except Unit JValue
  | .obj fields, k => Except.ok ((lookupJ fields k).getD JValue.null)
  | _, _ => Except.error ()

/-- Python hashability of a JSON value: lists and dicts are unhashable,
so using one as a dict key (`status_map.get(x)`, `x in NOTIFICATION_TYPES`)
raises `TypeError`; every other JSON value is hashable. -/
def pyHashable : JValue → Bool
  | .arr _ => false
  | .obj _ => false
  | _ => true

/-- Python `a or b`. -/
def pyOr (a b : JValue) : JValue := if truthy a then a else b

/-- Python `a == s` where `s` is a `str`: only a `str` value can compare
equal to a string. -/
def pyEqStr (a : JValue) (s : String) : Bool :=
  match a with
  | .str t => t == s
  | _ => false

/-- Python `dict.update`: keys already in `a` keep their position and take
the value from `b` when `b` has one; keys only in `b` are appended. -/
def dictUpdate (a b : List (String × JValue)) : List (String × JValue) :=
  a.map (fun kv => (kv.1, (lookupJ b kv.1).getD kv.2)) ++
    b.filter (fun kv => (lookupJ a kv.1).isNone)

/-- Single CPython dict insertion `d[k] = v`: an existing key keeps its
position and takes the new value; a new key is appended. -/
def dictInsert (d : List (String × JValue)) (k : String) (v : JValue) :
    List (String × JValue) :=
  match d with
  | [] => [(k, v)]
  | (k0, v0) :: rest =>
      if k0 = k then (k0, v) :: rest else (k0, v0) :: dictInsert rest k v

/-- Replace the value stored under an existing key, keeping its position
(used to write a mutated nested document back into its parent). -/
def setKeyJ : List (String × JValue) → String → JValue → List (String × JValue)
  | [], _, _ => []
  | (k0, v0) :: rest, k, v =>
      if k0 = k then (k0, v) :: rest else (k0, v0) :: setKeyJ rest k v

/-- One element of a non-dict `dict.update` argument, unpacked as a
key/value pair the way CPython iterates it:

* `some (some (k, v))` — the element yields the string-keyed pair `(k, v)`
  (a 2-character string yields its two characters; a 2-element list with a
  string first component yields that pair; a dict with exactly two entries
  iterates to its two keys);
* `some none` — the element yields a pair whose key is hashable but not a
  string (`[5, v]`, `[null, v]`, `[true, v]`): the insertion succeeds but
  the entry is invisible to every string-keyed lookup the source performs
  (the model drops it);
* `none` — unpacking or hashing the element raises (`ValueError` on a
  wrong-length element, `TypeError` on a non-iterable element or an
  unhashable key). -/
def pairStep : JValue → Option (Option (String × JValue))
  | .str s =>
      if s.length = 2 then some (some (s.take 1, JValue.str (s.drop 1)))
      else none
  | .arr [k, v] =>
      match k with
      | .str ks => some (some (ks, v))
      | .arr _ => none
      | .obj _ => none
      | _ => some none
  | .obj [(k1, _), (k2, _)] => some (some (k1, JValue.str k2))
  | _ => none

/-- Result of a `dict.update` call on a dict receiver: either it returns,
or it raises midway — in both cases `contents` is what the receiver holds
afterwards (CPython applies the pairs one by one, so a failing element
leaves the earlier insertions in place). -/
inductive MergeOutcome where
  | ok (contents : List (String × JValue))
  | fail (contents : List (String × JValue))

/-- Sequential application of the elements of a list `update` argument. -/
def applySeq (d : List (String × JValue)) : List JValue → MergeOutcome
  | [] => MergeOutcome.ok d
  | x :: rest =>
      match pairStep x with
      | none => MergeOutcome.fail d
      | some none => applySeq d rest
      | some (some (k, v)) => applySeq (dictInsert d k v) rest

/-- Python `recv.update(arg)` on a dict receiver `recv`: a dict argument
merges whole (`dictUpdate`); the empty string is an empty iterable; a list
is applied element by element; any other argument raises without touching
the receiver (`ValueError` on the first character of a non-empty string,
`TypeError` on a non-iterable). -/
def pyUpdateM (recv : List (String × JValue)) (arg : JValue) : MergeOutcome :=
  match arg with
  | .obj b => MergeOutcome.ok (dictUpdate recv b)
  | .str "" => MergeOutcome.ok recv
  | .arr xs => applySeq recv xs
  | _ => MergeOutcome.fail recv

/-- Field-by-field overlay lookup: a binding in `b` wins over one in `a`. -/
def overlayLookup (b a : List (String × JValue)) (k : String) : Option JValue :=
  match lookupJ b k with
  | some v => some v
  | none => lookupJ a k

/-- The value extracted for key `k` from the merged receipt info when
shape (1) gave dict `r1` and shape (2) gave dict `r2`. -/
def mergedField (r1 r2 : List (String × JValue)) (k : String) : JValue :=
  (overlayLookup r2 r1 k).getD JValue.null

/-- The fields of a successfully normalized notification
(the non-`raw_payload` keys of the dict `parse_notification` returns). -/
structure ParsedFields where
  notification_type : JValue
  transaction_id : JValue
  original_transaction_id : JValue
  bundle_id : JValue
  product_id : JValue
  user_id : JValue
  expires_date : JValue
  purchase_date : JValue
  cancellation_date : JValue
  auto_renew_status : JValue

/-- A normalized `NotificationRecord`: `raw_payload` is always present;
`parsed = none` is the degraded record `\x7b"raw_payload": raw\x7d` that the
`except` branch of `parse_notification` returns. -/
structure NotificationRecord where
  raw_payload : JValue
  parsed : Option ParsedFields

/-- Where `receipt_info` lives inside `raw_data` after the shape-(1)
extraction (src/server.py lines 177-182): it is a fresh dict (key absent
or value falsy — nothing aliased), the value stored under
`latest_receipt_info` itself (truthy non-list), or element 0 of the list
stored there (truthy list, `tail` being the remaining elements).  A
mutation of an aliased `receipt_info` is a mutation of `raw_data`. -/
inductive RILoc where
  | fresh
  | atKey
  | atIndex0 (tail : List JValue)

/-- The shape-(1) extraction: `raw_data.get("latest_receipt_info", [\x7b\x7d])`
followed by the truthiness guard and `[0] if isinstance(..., list)`.
Returns the extracted value together with its location inside `raw_data`. -/
def extractRI (d : List (String × JValue)) : JValue × RILoc :=
  match lookupJ d "latest_receipt_info" with
  | none => (JValue.obj [], RILoc.fresh)
  | some lri =>
      if truthy lri then
        match lri with
        | JValue.arr (x :: t) => (x, RILoc.atIndex0 t)
        | JValue.arr [] => (JValue.obj [], RILoc.fresh)
        | v => (v, RILoc.atKey)
      else (JValue.obj [], RILoc.fresh)

/-- Write the (possibly mutated) contents of `receipt_info` back into the
top-level document at its location; a fresh dict leaves the document
unchanged. -/
def writeBack (d : List (String × JValue)) (loc : RILoc)
    (m : List (String × JValue)) : List (String × JValue) :=
  match loc with
  | RILoc.fresh => d
  | RILoc.atKey => setKeyJ d "latest_receipt_info" (JValue.obj m)
  | RILoc.atIndex0 t => setKeyJ d "latest_receipt_info" (JValue.arr (JValue.obj m :: t))

/-- The field extraction of the returned dict (src/server.py lines
191-203), evaluated after the merge: `dmut` is the top-level document as
mutated in place, `ri` the merged receipt dict, `nt` the value read at
line 174 before the merge (top-level lookups are unaffected by the merge,
which only rewrites the value nested under `latest_receipt_info`). -/
def finishFields (dmut : List (String × JValue)) (ri : List (String × JValue))
    (nt : JValue) : JValue × ParsedFields :=
  (JValue.obj dmut,
   { notification_type := nt
     transaction_id := (lookupJ ri "transaction_id").getD JValue.null
     original_transaction_id := (lookupJ ri "original_transaction_id").getD JValue.null
     bundle_id := pyOr ((lookupJ dmut "bundle_id").getD JValue.null)
       ((lookupJ ri "bundle_id").getD JValue.null)
     product_id := (lookupJ ri "product_id").getD JValue.null
     user_id := pyOr ((lookupJ ri "web_order_line_item_id").getD JValue.null)
       ((lookupJ ri "app_account_token").getD JValue.null)
     expires_date := (lookupJ ri "expires_date_ms").getD JValue.null
     purchase_date := (lookupJ ri "purchase_date_ms").getD JValue.null
     cancellation_date := (lookupJ ri "cancellation_date_ms").getD JValue.null
     auto_renew_status := (lookupJ dmut "auto_renew_status").getD JValue.null })

/-- The `try` body of `NotificationProcessor.parse_notification`
(src/server.py lines 172-203).  An `ok` result carries the document as
mutated in place by the merge together with the extracted fields; an
`error` result is a raised exception, carrying the document as mutated at
the moment of the raise (`receipt_info` aliases part of `raw_data`, and a
partially applied `update` leaves its earlier insertions in place).
Raise points, in source order: `raw_data.get` on a non-dict body,
`unified_receipt.get` on a non-dict `unified_receipt`,
`receipt_info.update` on a non-dict `receipt_info` (`AttributeError`,
before any mutation), a failing element of the `update` argument (after
the earlier insertions mutated the receiver), and `receipt_info.get` on a
non-dict `receipt_info` when the merge was skipped. -/
def parseTry (raw : JValue) : Except JValue (JValue × ParsedFields) :=
  match raw with
  | JValue.obj d =>
      let nt := (lookupJ d "notification_type").getD JValue.null
      let ri0 := (extractRI d).1
      let loc := (extractRI d).2
      match (lookupJ d "unified_receipt").getD (JValue.obj []) with
      | JValue.obj u =>
          let li := (lookupJ u "latest_receipt_info").getD (JValue.arr [JValue.obj []])
          if truthy li then
            let fi := match li with
              | JValue.arr (x :: _) => x
              | v => v
            match ri0 with
            | JValue.obj rx =>
                match pyUpdateM rx fi with
                | MergeOutcome.ok m =>
                    Except.ok (finishFields (writeBack d loc m) m nt)
                | MergeOutcome.fail mp =>
                    Except.error (JValue.obj (writeBack d loc mp))
            | _ => Except.error (JValue.obj d)
          else
            match ri0 with
            | JValue.obj rx => Except.ok (finishFields d rx nt)
            | _ => Except.error (JValue.obj d)
      | _ => Except.error (JValue.obj d)
  | v => Except.error v

/-- Embeds `NotificationProcessor.parse_notification`: the `try` body,
with the catch-all `except` degrading to `\x7b"raw_payload": raw_data\x7d`.
In both outcomes `raw_payload` is the `raw_data` object as it stands when
the function returns — mutated in place whenever the merge wrote into an
aliased receipt dict. -/
def parse_notification (raw : JValue) : NotificationRecord :=
  match parseTry raw with
  | Except.ok df => { raw_payload := df.1, parsed := some df.2 }
  | Except.error doc => { raw_payload := doc, parsed := none }

/-- Python `notification_data.get(k)` for a normalized record: the degraded
record has no key besides `raw_payload`, so every other key reads `None`. -/
def NotificationRecord.getF (r : NotificationRecord) (sel : ParsedFields → JValue) : JValue :=
  match r.parsed with
  | some f => sel f
  | none => JValue.null

/-- Python `notification_data.get("user_id")`. -/
def NotificationRecord.getUserId (r : NotificationRecord) : JValue :=
  r.getF (fun f => f.user_id)

/-- Python `notification_data.get("auto_renew_status", 1)`: the default `1` fires
only for a record that lacks the key entirely (the degraded record);
`parse_notification` always populates the key, possibly with `None`. -/
def NotificationRecord.getAutoRenewD1 (r : NotificationRecord) : JValue :=
  match r.parsed with
  | some f => f.auto_renew_status
  | none => JValue.num 1

/-- The `status_map` dict of
`NotificationProcessor._determine_subscription_status`
(src/server.py lines 248-257). -/
def status_map : List (String × String) :=
  [("INITIAL_BUY", "active"),
   ("RENEWAL", "active"),
   ("INTERACTIVE_RENEWAL", "active"),
   ("CANCEL", "cancelled"),
   ("DID_FAIL_TO_RENEW", "expired"),
   ("DID_RECOVER", "active"),
   ("REFUND", "refunded"),
   ("REVOKE", "revoked")]

/-- Lookup in a string-valued dict (same semantics as `lookupJ`). -/
def lookupS : List (String × String) → String → Option String
  | [], _ => none
  | (k, v) :: rest, key => if k = key then some v else lookupS rest key

/-- Embeds `NotificationProcessor._determine_subscription_status`
(src/server.py lines 246-258): `status_map.get(notification_type, "unknown")`.
The argument is whatever `notification_data.get("notification_type")`
returned: a hashable non-string (`None`, a number, a boolean) misses the
map and gets the `"unknown"` default, while an unhashable value (a list
or dict) makes `status_map.get` raise `TypeError`. -/
def determine_subscription_status : JValue → Except Unit String
  | .str s => Except.ok ((lookupS status_map s).getD "unknown")
  | .arr _ => Except.error ()
  | .obj _ => Except.error ()
  | _ => Except.ok "unknown"

/-! ### The durable stores (modelled at their CRUD interface) -/

/-- A row of the append-only `notifications` table, as inserted by
`DatabaseManager.store_notification` (src/server.py lines 114-135).
`raw_payload` is stored as `json.dumps(...)` in SQLite; the model keeps
the value itself. -/
structure StoredNotification where
  id : Nat
  notification_type : JValue
  transaction_id : JValue
  original_transaction_id : JValue
  bundle_id : JValue
  product_id : JValue
  user_id : JValue
  expires_date : JValue
  purchase_date : JValue
  cancellation_date : JValue
  raw_payload : JValue

/-- A row of `user_subscriptions` (unique key `user_id`), as written by
`DatabaseManager.update_user_subscription` (src/server.py lines 137-153). -/
structure SubscriptionSnapshot where
  user_id : JValue
  product_id : JValue
  transaction_id : JValue
  original_transaction_id : JValue
  subscription_status : String
  expires_date : JValue
  auto_renew_status : JValue

/-- A row of the append-only `webhook_logs` table. -/
structure WebhookLogEntry where
  notification_id : Nat
  webhook_url : String
  response_status : Int
  response_body : String

/-- The durable state: the three tables plus the autoincrement counter of
the `notifications` table. -/
structure AppState where
  notifications : List StoredNotification
  subscriptions : List SubscriptionSnapshot
  webhook_logs : List WebhookLogEntry
  nextId : Nat

/-- The empty database (SQLite rowids start at 1). -/
def emptyState : AppState :=
  { notifications := [], subscriptions := [], webhook_logs := [], nextId := 1 }

/-- Relevant configuration: the shared secret and the optional webhook URL
(`Config.SHARED_SECRET`, `Config.WEBHOOK_URL`). -/
structure ServerConfig where
  shared_secret : String
  webhook_url : Option String

/-- Fault injection for the two durable writes of the processing pipeline:
a `true` flag makes the corresponding SQLite write raise. -/
structure DbFaults where
  storeFails : Bool
  upsertFails : Bool

/-- The fault-free storage layer. -/
def noFaults : DbFaults := { storeFails := false, upsertFails := false }

/-- Outcome of the outbound `requests.post` in `_send_webhook`: either a
transport-level exception (timeout, connection refused, DNS failure) or an
HTTP response with a status code and a body. -/
inductive WebhookOutcome where
  | transportFailure
  | httpResponse (status : Int) (text : String)

/-- The row `store_notification` inserts for a record, given the rowid the
autoincrement column assigns. -/
def mkStoredRow (i : Nat) (nd : NotificationRecord) : StoredNotification :=
  { id := i
    notification_type := nd.getF (fun f => f.notification_type)
    transaction_id := nd.getF (fun f => f.transaction_id)
    original_transaction_id := nd.getF (fun f => f.original_transaction_id)
    bundle_id := nd.getF (fun f => f.bundle_id)
    product_id := nd.getF (fun f => f.product_id)
    user_id := nd.getF (fun f => f.user_id)
    expires_date := nd.getF (fun f => f.expires_date)
    purchase_date := nd.getF (fun f => f.purchase_date)
    cancellation_date := nd.getF (fun f => f.cancellation_date)
    raw_payload := nd.raw_payload }

/-- Embeds `DatabaseManager.store_notification`: append a row, return
`cursor.lastrowid`. -/
def store_notification (st : AppState) (nd : NotificationRecord) : AppState × Nat :=
  ({ st with notifications := st.notifications ++ [mkStoredRow st.nextId nd]
             nextId := st.nextId + 1 },
   st.nextId)

/-- Embeds `DatabaseManager.update_user_subscription`: `INSERT OR REPLACE` keyed
by the unique `user_id` column deletes any conflicting row and inserts the
new one whole. -/
def update_user_subscription (st : AppState) (snap : SubscriptionSnapshot) : AppState :=
  { st with subscriptions :=
      st.subscriptions.filter (fun s => !jeq s.user_id snap.user_id) ++ [snap] }

/-- Embeds `DatabaseManager.get_user_subscription`: the row for `user_id`, if any. -/
def get_user_subscription (st : AppState) (uid : JValue) : Option SubscriptionSnapshot :=
  st.subscriptions.find? (fun s => jeq s.user_id uid)

/-- Embeds `NotificationProcessor._send_webhook` (src/server.py lines 260-291):
the whole body is inside `try/except`, so nothing propagates.  A
`webhook_logs` row is inserted only after `requests.post` returned an HTTP
response, with `response.text[:1000]`; a transport-level exception skips
the insert and is merely logged. -/
def send_webhook (url : String) (outcome : WebhookOutcome) (nid : Nat)
    (st : AppState) : AppState :=
  match outcome with
  | WebhookOutcome.transportFailure => st
  | WebhookOutcome.httpResponse code text =>
      { st with webhook_logs := st.webhook_logs ++
          [{ notification_id := nid, webhook_url := url, response_status := code
             response_body := text.take 1000 }] }

/-- The `user_data` dict built by `process_notification` (src/server.py
lines 223-231), given the already-resolved `subscription_status` (the
resolver runs first, at line 221, and can raise).  Every key is populated
here, so the `.get(..., 1)` defaults inside `update_user_subscription`
can never fire; the only `.get` default that matters is
`notification_data.get("auto_renew_status", 1)`. -/
def mkUserData (nd : NotificationRecord) (status : String) : SubscriptionSnapshot :=
  { user_id := nd.getUserId
    product_id := nd.getF (fun f => f.product_id)
    transaction_id := nd.getF (fun f => f.transaction_id)
    original_transaction_id := nd.getF (fun f => f.original_transaction_id)
    subscription_status := status
    expires_date := nd.getF (fun f => f.expires_date)
    auto_renew_status := nd.getAutoRenewD1 }

/-- The `try` body of `NotificationProcessor.process_notification`
(src/server.py lines 212-240).  An `error` result is a raised exception,
carrying the state at the moment of the raise (each SQLite `with` block
commits independently, so a row already stored stays stored).  When the
record has a truthy `user_id`, the status resolver runs before the upsert
and its `TypeError` (unhashable `notification_type`) aborts the step with
the log row already committed. -/
def processTry (f : DbFaults) (cfg : ServerConfig) (wh : WebhookOutcome)
    (st : AppState) (nd : NotificationRecord) : Except AppState AppState :=
  Except.bind
    (if f.storeFails then Except.error st
     else Except.ok (store_notification st nd)) fun stored =>
  Except.bind
    (if truthy nd.getUserId then
       match determine_subscription_status (nd.getF (fun f => f.notification_type)) with
       | Except.error _ => Except.error stored.1
       | Except.ok status =>
           if f.upsertFails then Except.error stored.1
           else Except.ok (update_user_subscription stored.1 (mkUserData nd status))
     else Except.ok stored.1) fun st2 =>
  Except.ok
    (match cfg.webhook_url with
     | some url => send_webhook url wh stored.2 st2
     | none => st2)

/-- Embeds `NotificationProcessor.process_notification`: the `try` body with the
catch-all `except` that logs and returns `False`. -/
def process_notification (f : DbFaults) (cfg : ServerConfig) (wh : WebhookOutcome)
    (st : AppState) (nd : NotificationRecord) : AppState × Bool :=
  match processTry f cfg wh st nd with
  | Except.ok stOut => (stOut, true)
  | Except.error stRaise => (stRaise, false)

/-! ### HTTP routes -/

/-- The `status` field of the JSON bodies the two modelled routes return. -/
inductive RespStatus where
  | invalid
  | invalidSharedSecret
  | ok
  | processingError
  | serverError
  | vrError
  | proxied (v : JValue)

/-- The `try` body of the `receive_notification` route (src/server.py
lines 326-362).  `getJson` is the result of `request.get_json()`
(`error` = it raised).  Note the source guards the secret comparison with
`if received_secret:`, a truthiness test, before comparing.  After
parsing, line 349 evaluates `notification_type in NOTIFICATION_TYPES`,
which hashes the value and raises `TypeError` into the route's catch-all
when the parsed `notification_type` is a list or dict. -/
def receiveTry (cfg : ServerConfig) (f : DbFaults) (wh : WebhookOutcome)
    (st : AppState) (getJson : Except Unit JValue) :
    Except Unit (AppState × Nat × RespStatus) :=
  Except.bind getJson fun data =>
  if !truthy data then Except.ok (st, 400, RespStatus.invalid)
  else
    Except.bind (pyGet data "password") fun pw =>
    if truthy pw && !pyEqStr pw cfg.shared_secret then
      Except.ok (st, 403, RespStatus.invalidSharedSecret)
    else
      let nd := parse_notification data
      if !pyHashable (nd.getF (fun x => x.notification_type)) then
        Except.error ()
      else
        let out := process_notification f cfg wh st nd
        if out.2 then Except.ok (out.1, 200, RespStatus.ok)
        else Except.ok (out.1, 500, RespStatus.processingError)

/-- The `receive_notification` route: the `try` body with the catch-all
`except` returning `500 \x7b"status": "server_error"\x7d`.  The state at a
raise is the inbound state: the only raising steps (`get_json`, `.get` on
a non-dict body) precede every durable write. -/
def receive_notification (cfg : ServerConfig) (f : DbFaults) (wh : WebhookOutcome)
    (st : AppState) (getJson : Except Unit JValue) : AppState × Nat × RespStatus :=
  match receiveTry cfg f wh st getJson with
  | Except.ok r => r
  | Except.error _ => (st, 500, RespStatus.serverError)

/-- The `try` body of the `validate_receipt` route (src/server.py lines
372-380).  `vres` stands for the out-of-scope remote validation result
(`ReceiptValidator.validate_receipt` is a pass-through proxy). -/
def validateReceiptTry (getJson : Except Unit JValue) (vres : JValue) :
    Except Unit (Nat × RespStatus) :=
  Except.bind getJson fun data =>
  Except.bind (pyGet data "receipt_data") fun rd =>
  if truthy rd then Except.ok (200, RespStatus.proxied vres)
  else Except.ok (400, RespStatus.invalid)

/-- The `validate_receipt` route: the `try` body with the catch-all
`except` returning `500 \x7b"status": "error"\x7d`. -/
def validate_receipt (getJson : Except Unit JValue) (vres : JValue) :
    Nat × RespStatus :=
  match validateReceiptTry getJson vres with
  | Except.ok r => r
  | Except.error _ => (500, RespStatus.vrError)

/-! ### Shapes and concrete scenario inputs -/

/-- A well-formed receipt-info value in the sense of the spec: either a
single object or a sequence whose first element is an object. -/
def isReceiptShape (v : JValue) (r : List (String × JValue)) : Prop :=
  v = JValue.obj r ∨ ∃ t, v = JValue.arr (JValue.obj r :: t)

/-- Configuration with the default shared secret and no webhook URL. -/
def cfgNoWebhook : ServerConfig :=
  { shared_secret := "bomboclat", webhook_url := none }

/-- Receipt-info fields of the CANCEL scenario payload: an
`app_account_token` but no `web_order_line_item_id`. -/
def cancelReceiptFields : List (String × JValue) :=
  [("app_account_token", JValue.str "U1"),
   ("product_id", JValue.str "P1")]

/-- Top-level fields of a CANCEL notification payload that carries a
linkable user but leaves `auto_renew_status` unspecified. -/
def rawCancelFields : List (String × JValue) :=
  [("notification_type", JValue.str "CANCEL"),
   ("latest_receipt_info", JValue.arr [JValue.obj cancelReceiptFields])]

/-- The CANCEL scenario payload as a JSON value. -/
def rawCancelNoAuto : JValue := JValue.obj rawCancelFields

/-- A request body whose `password` field is the empty string: present,
different from the configured secret, yet falsy. -/
def bodyEmptyPw : JValue := JValue.obj [("password", JValue.str "")]

/-- A malformed payload: `latest_receipt_info` is a number. -/
def rawMalformed : JValue := JValue.obj [("latest_receipt_info", JValue.num 5)]

/-- A payload whose shape-(2) merge partially mutates the aliased
shape-(1) receipt dict and then raises: the update argument is the list
`["a1", 5]`, whose first element inserts the pair `("a", "1")` into
`raw_data["latest_receipt_info"]` before the second raises `TypeError`. -/
def rawMutating : JValue := JValue.obj
  [("latest_receipt_info", JValue.obj [("x", JValue.num 1)]),
   ("unified_receipt", JValue.obj
      [("latest_receipt_info",
        JValue.arr [JValue.arr [JValue.str "a1", JValue.num 5]])])]

/-- The document `rawMutating` has become when `parse_notification`
returns: the nested receipt dict gained the pair inserted by the partial
update. -/
def rawMutatingAfter : JValue := JValue.obj
  [("latest_receipt_info", JValue.obj [("x", JValue.num 1), ("a", JValue.str "1")]),
   ("unified_receipt", JValue.obj
      [("latest_receipt_info",
        JValue.arr [JValue.arr [JValue.str "a1", JValue.num 5]])])]

/-- Shape-(1) receipt fields of the two-shape scenario payload. -/
def shape1Fields : List (String × JValue) :=
  [("transaction_id", JValue.str "T1"), ("product_id", JValue.str "Pold")]

/-- Shape-(2) receipt fields of the two-shape scenario payload: the
`product_id` overlaps shape (1), the `app_account_token` is new. -/
def shape2Fields : List (String × JValue) :=
  [("product_id", JValue.str "Pnew"), ("app_account_token", JValue.str "U1")]

/-- A payload carrying both receipt shapes with an overlapping
`product_id`. -/
def rawBothShapes : List (String × JValue) :=
  [("notification_type", JValue.str "RENEWAL"),
   ("latest_receipt_info", JValue.obj shape1Fields),
   ("unified_receipt", JValue.obj
      [("latest_receipt_info", JValue.arr [JValue.obj shape2Fields])])]

/-! ### Helper lemmas -/

theorem bind_ok {α β ε : Type} (a : α) (f : α → Except ε β) :
    Except.bind (Except.ok a) f = f a := rfl

theorem pyGet_obj (fs : List (String × JValue)) (k : String) :
    pyGet (JValue.obj fs) k = Except.ok ((lookupJ fs k).getD JValue.null) := rfl

mutual
theorem jeq_refl : ∀ a, jeq a a = true
  | .null => rfl
  | .bool b => by simp [jeq]
  | .num n => by simp [jeq]
  | .str s => by simp [jeq]
  | .arr xs => by simp [jeq, jeqL_refl xs]
  | .obj fs => by simp [jeq, jeqF_refl fs]
theorem jeqL_refl : ∀ xs, jeqL xs xs = true
  | [] => rfl
  | x :: xs => by simp [jeqL, jeq_refl x, jeqL_refl xs]
theorem jeqF_refl : ∀ fs, jeqF fs fs = true
  | [] => rfl
  | (k, v) :: fs => by simp [jeqF, jeq_refl v, jeqF_refl fs]
end

theorem lookupJ_append (l1 l2 : List (String × JValue)) (k : String) :
    lookupJ (l1 ++ l2) k =
      match lookupJ l1 k with
      | some v => some v
      | none => lookupJ l2 k := by
  induction l1 with
  | nil => simp [lookupJ]
  | cons p l ih =>
      obtain ⟨pk, pv⟩ := p
      by_cases h : pk = k <;> simp [lookupJ, h, ih]

theorem lookupJ_map_update (b a : List (String × JValue)) (k : String) :
    lookupJ (a.map (fun kv => (kv.1, (lookupJ b kv.1).getD kv.2))) k =
      (lookupJ a k).map (fun v => (lookupJ b k).getD v) := by
  induction a with
  | nil => simp [lookupJ]
  | cons p l ih =>
      obtain ⟨pk, pv⟩ := p
      by_cases h : pk = k <;> simp [lookupJ, h, ih]

theorem lookupJ_filter_none (a b : List (String × JValue)) (k : String)
    (h : lookupJ a k = none) :
    lookupJ (b.filter (fun kv => (lookupJ a kv.1).isNone)) k = lookupJ b k := by
  induction b with
  | nil => simp
  | cons p l ih =>
      obtain ⟨pk, pv⟩ := p
      by_cases hk : pk = k
      · subst hk
        simp [List.filter_cons, h, lookupJ]
      · cases hp : (lookupJ a pk).isNone <;>
          simp [List.filter_cons, hp, lookupJ, hk, ih]

theorem lookupJ_dictUpdate (a b : List (String × JValue)) (k : String) :
    lookupJ (dictUpdate a b) k = overlayLookup b a k := by
  unfold dictUpdate overlayLookup
  rw [lookupJ_append]
  cases ha : lookupJ a k with
  | none =>
      rw [lookupJ_map_update]
      simp [ha, lookupJ_filter_none a b k ha]
      cases lookupJ b k <;> simp
  | some v =>
      rw [lookupJ_map_update]
      simp [ha]
      cases lookupJ b k <;> simp

theorem lookupJ_setKeyJ_ne (d : List (String × JValue)) (k k2 : String)
    (v : JValue) (h : k ≠ k2) :
    lookupJ (setKeyJ d k v) k2 = lookupJ d k2 := by
  induction d with
  | nil => simp [setKeyJ]
  | cons p l ih =>
      obtain ⟨pk, pv⟩ := p
      by_cases hk : pk = k
      · subst hk
        simp [setKeyJ, lookupJ, h]
      · by_cases hk2 : pk = k2 <;>
          simp [setKeyJ, lookupJ, hk, hk2, ih, Ne.symm h]

theorem writeBack_other_key (d : List (String × JValue)) (loc : RILoc)
    (m : List (String × JValue)) (k2 : String)
    (h : k2 ≠ "latest_receipt_info") :
    lookupJ (writeBack d loc m) k2 = lookupJ d k2 := by
  cases loc with
  | fresh => rfl
  | atKey => exact lookupJ_setKeyJ_ne d _ k2 _ (Ne.symm h)
  | atIndex0 t => exact lookupJ_setKeyJ_ne d _ k2 _ (Ne.symm h)

theorem extractRI_shape (d : List (String × JValue)) (lri : JValue)
    (r1 : List (String × JValue))
    (h1 : lookupJ d "latest_receipt_info" = some lri)
    (hs1 : isReceiptShape lri r1) :
    (extractRI d).1 = JValue.obj r1 := by
  rcases hs1 with h | ⟨t, h⟩ <;> subst h
  · cases r1 with
    | nil => simp [extractRI, h1, truthy]
    | cons p r => simp [extractRI, h1, truthy]
  · simp [extractRI, h1, truthy]

/-- The fields extracted from the merged receipt dict `m` are the overlay
fields of `r1` and `r2` whenever the lookups agree pointwise. -/
theorem finishFields_merged (d : List (String × JValue)) (loc : RILoc)
    (m r1 r2 : List (String × JValue)) (nt : JValue)
    (hmk : ∀ k, lookupJ m k = overlayLookup r2 r1 k) :
    finishFields (writeBack d loc m) m nt = (JValue.obj (writeBack d loc m), {
      notification_type := nt
      transaction_id := mergedField r1 r2 "transaction_id"
      original_transaction_id := mergedField r1 r2 "original_transaction_id"
      bundle_id := pyOr ((lookupJ d "bundle_id").getD JValue.null)
        (mergedField r1 r2 "bundle_id")
      product_id := mergedField r1 r2 "product_id"
      user_id := pyOr (mergedField r1 r2 "web_order_line_item_id")
        (mergedField r1 r2 "app_account_token")
      expires_date := mergedField r1 r2 "expires_date_ms"
      purchase_date := mergedField r1 r2 "purchase_date_ms"
      cancellation_date := mergedField r1 r2 "cancellation_date_ms"
      auto_renew_status := (lookupJ d "auto_renew_status").getD JValue.null }) := by
  have hb := writeBack_other_key d loc m "bundle_id" (by decide)
  have ha := writeBack_other_key d loc m "auto_renew_status" (by decide)
  simp [finishFields, mergedField, hmk, hb, ha]

/-- Evaluation of the normalizer on a payload that is a dict carrying a
shape-(1) receipt info, and either no `unified_receipt` (then `r2 = []`)
or a `unified_receipt` dict with its own receipt info of shape `r2`: the
parse succeeds and the extracted fields are the overlay fields.  The
resulting document (mutated when the merge wrote into an aliased receipt
dict) is existentially quantified. -/
theorem parseTry_shapes (d : List (String × JValue)) (lri : JValue)
    (r1 r2 : List (String × JValue))
    (h1 : lookupJ d "latest_receipt_info" = some lri)
    (hs1 : isReceiptShape lri r1)
    (hu : (lookupJ d "unified_receipt" = none ∧ r2 = []) ∨
      (∃ u li, lookupJ d "unified_receipt" = some (JValue.obj u) ∧
        lookupJ u "latest_receipt_info" = some li ∧ isReceiptShape li r2)) :
    ∃ doc, parseTry (JValue.obj d) = Except.ok (doc, {
      notification_type := (lookupJ d "notification_type").getD JValue.null
      transaction_id := mergedField r1 r2 "transaction_id"
      original_transaction_id := mergedField r1 r2 "original_transaction_id"
      bundle_id := pyOr ((lookupJ d "bundle_id").getD JValue.null)
        (mergedField r1 r2 "bundle_id")
      product_id := mergedField r1 r2 "product_id"
      user_id := pyOr (mergedField r1 r2 "web_order_line_item_id")
        (mergedField r1 r2 "app_account_token")
      expires_date := mergedField r1 r2 "expires_date_ms"
      purchase_date := mergedField r1 r2 "purchase_date_ms"
      cancellation_date := mergedField r1 r2 "cancellation_date_ms"
      auto_renew_status := (lookupJ d "auto_renew_status").getD JValue.null }) := by
  have hri := extractRI_shape d lri r1 h1 hs1
  rcases hu with ⟨hu1, hr2⟩ | ⟨u, li, hu1, hu2, hs2⟩
  · subst hr2
    refine ⟨JValue.obj (writeBack d (extractRI d).2 (dictUpdate r1 [])), ?_⟩
    have hmerge : pyUpdateM r1 (JValue.obj []) =
        MergeOutcome.ok (dictUpdate r1 []) := rfl
    simp only [parseTry]
    rw [hri, hu1]
    simp only [Option.getD_none, lookupJ, truthy, List.isEmpty_cons,
      Bool.not_false, if_true, hmerge]
    rw [finishFields_merged d (extractRI d).2 (dictUpdate r1 []) r1 [] _
      (fun k => by rw [lookupJ_dictUpdate])]
  · rcases hs2 with h | ⟨t, h⟩ <;> subst h
    · cases r2 with
      | nil =>
          refine ⟨JValue.obj d, ?_⟩
          simp only [parseTry]
          rw [hri, hu1]
          simp only [Option.getD_some, hu2, truthy, List.isEmpty_nil,
            Bool.not_true]
          rw [if_neg (by simp)]
          have heq : finishFields d r1 ((lookupJ d "notification_type").getD JValue.null) =
              finishFields (writeBack d RILoc.fresh r1) r1
                ((lookupJ d "notification_type").getD JValue.null) := rfl
          rw [heq, finishFields_merged d RILoc.fresh r1 r1 [] _
            (fun k => by simp [overlayLookup, lookupJ])]
          rfl
      | cons p r =>
          refine ⟨JValue.obj (writeBack d (extractRI d).2 (dictUpdate r1 (p :: r))), ?_⟩
          have hmerge : pyUpdateM r1 (JValue.obj (p :: r)) =
              MergeOutcome.ok (dictUpdate r1 (p :: r)) := rfl
          simp only [parseTry]
          rw [hri, hu1]
          simp only [Option.getD_some, hu2, truthy, List.isEmpty_cons,
            Bool.not_false, if_true, hmerge]
          rw [finishFields_merged d (extractRI d).2 (dictUpdate r1 (p :: r)) r1 (p :: r) _
            (fun k => by rw [lookupJ_dictUpdate])]
    · refine ⟨JValue.obj (writeBack d (extractRI d).2 (dictUpdate r1 r2)), ?_⟩
      have hmerge : pyUpdateM r1 (JValue.obj r2) =
          MergeOutcome.ok (dictUpdate r1 r2) := rfl
      simp only [parseTry]
      rw [hri, hu1]
      simp only [Option.getD_some, hu2, truthy, List.isEmpty_cons,
        Bool.not_false, if_true, hmerge]
      rw [finishFields_merged d (extractRI d).2 (dictUpdate r1 r2) r1 r2 _
        (fun k => by rw [lookupJ_dictUpdate])]

theorem find?_filter_append (l : List SubscriptionSnapshot)
    (snap : SubscriptionSnapshot) (uid : JValue)
    (hsnap : jeq snap.user_id uid = true) :
    ((l.filter (fun s => !jeq s.user_id uid)) ++ [snap]).find?
      (fun s => jeq s.user_id uid) = some snap := by
  induction l with
  | nil => simp [List.find?, hsnap]
  | cons x l ih =>
      cases h : jeq x.user_id uid with
      | false => simpa [List.filter_cons, h, List.find?] using ih
      | true => simpa [List.filter_cons, h] using ih

theorem send_webhook_subscriptions (url : String) (wh : WebhookOutcome)
    (nid : Nat) (st : AppState) :
    (send_webhook url wh nid st).subscriptions = st.subscriptions := by
  cases wh <;> rfl

theorem send_webhook_notifications (url : String) (wh : WebhookOutcome)
    (nid : Nat) (st : AppState) :
    (send_webhook url wh nid st).notifications = st.notifications := by
  cases wh <;> rfl

theorem send_webhook_nextId (url : String) (wh : WebhookOutcome)
    (nid : Nat) (st : AppState) :
    (send_webhook url wh nid st).nextId = st.nextId := by
  cases wh <;> rfl

/-- With a fault-free storage layer, `process_notification` always
appends exactly one notification row and bumps the autoincrement counter:
the log write commits before any later step can raise. -/
theorem process_noFaults_log (cfg : ServerConfig) (wh : WebhookOutcome)
    (st : AppState) (nd : NotificationRecord) :
    (process_notification noFaults cfg wh st nd).1.notifications =
      st.notifications ++ [mkStoredRow st.nextId nd] ∧
    (process_notification noFaults cfg wh st nd).1.nextId = st.nextId + 1 := by
  cases h : truthy nd.getUserId <;>
    cases hdet : determine_subscription_status
      (nd.getF (fun x => x.notification_type)) <;>
    cases hw : cfg.webhook_url <;>
      simp [process_notification, processTry, noFaults, Except.bind, h, hdet, hw,
        store_notification, update_user_subscription,
        send_webhook_notifications, send_webhook_nextId]

/-- With a fault-free storage layer, a record with a truthy `user_id`
whose notification type the resolver accepts succeeds and leaves exactly
the snapshot built from the record in the subscription table. -/
theorem process_noFaults_upsert (cfg : ServerConfig) (wh : WebhookOutcome)
    (st : AppState) (nd : NotificationRecord) (s : String)
    (h : truthy nd.getUserId = true)
    (hdet : determine_subscription_status
      (nd.getF (fun x => x.notification_type)) = Except.ok s) :
    (process_notification noFaults cfg wh st nd).2 = true ∧
    get_user_subscription (process_notification noFaults cfg wh st nd).1
      nd.getUserId = some (mkUserData nd s) := by
  cases hw : cfg.webhook_url <;>
    simp [process_notification, processTry, noFaults, Except.bind, h, hdet, hw,
      store_notification, update_user_subscription, get_user_subscription,
      send_webhook_subscriptions, find?_filter_append, jeq_refl] <;>
    exact Or.inr ⟨fun x _ hx => hx, jeq_refl _⟩

/-- When the record has no truthy `user_id`, or the resolver raises on
its notification type, the subscription table is untouched (in the second
case the call also fails, the log row staying committed). -/
theorem process_noFaults_subs_untouched (cfg : ServerConfig)
    (wh : WebhookOutcome) (st : AppState) (nd : NotificationRecord)
    (h : truthy nd.getUserId = false ∨ determine_subscription_status
      (nd.getF (fun x => x.notification_type)) = Except.error ()) :
    (process_notification noFaults cfg wh st nd).1.subscriptions =
      st.subscriptions := by
  rcases h with h | h
  · cases hw : cfg.webhook_url <;>
      simp [process_notification, processTry, noFaults, Except.bind, h, hw,
        store_notification, send_webhook_subscriptions]
  · cases hu : truthy nd.getUserId <;>
      cases hw : cfg.webhook_url <;>
        simp [process_notification, processTry, noFaults, Except.bind, h, hu, hw,
          store_notification, send_webhook_subscriptions]

theorem determine_default (s : String)
    (h1 : s ≠ "INITIAL_BUY") (h2 : s ≠ "RENEWAL")
    (h3 : s ≠ "INTERACTIVE_RENEWAL") (h4 : s ≠ "CANCEL")
    (h5 : s ≠ "DID_FAIL_TO_RENEW") (h6 : s ≠ "DID_RECOVER")
    (h7 : s ≠ "REFUND") (h8 : s ≠ "REVOKE") :
    determine_subscription_status (JValue.str s) = Except.ok "unknown" := by
  simp [determine_subscription_status, status_map, lookupS,
    Ne.symm h1, Ne.symm h2, Ne.symm h3, Ne.symm h4,
    Ne.symm h5, Ne.symm h6, Ne.symm h7, Ne.symm h8]

/-! ### Claims -/

/-- C2 counterexample: on a payload whose shape-(2) merge partially
applies and then raises, `parse_notification` degrades as claimed, but
the degraded record's `raw_payload` is not the original input: the merge
mutated the aliased receipt dict in place before the raise, so
`raw_payload` holds the mutated document. -/
theorem C2_counterexample :
    (parse_notification rawMutating).parsed = none ∧
    (parse_notification rawMutating).raw_payload = rawMutatingAfter ∧
    (parse_notification rawMutating).raw_payload ≠ rawMutating := by
  refine ⟨rfl, rfl, ?_⟩
  intro hcontra
  have h2 := congrArg (fun v =>
    match v with
    | JValue.obj d =>
        (match lookupJ d "latest_receipt_info" with
         | some (JValue.obj r) => r.length
         | _ => 0)
    | _ => 0) hcontra
  have h3 : (2 : Nat) = 1 := h2
  exact absurd h3 (by decide)

/-- C2 (corrected): `parse_notification` is a total function (the
catch-all `except` absorbs every structural failure of the `try` body);
on a structural failure it returns the record whose only populated field
is `raw_payload`, holding the input document as (possibly partially)
mutated in place by the receipt merge — equal to the original input
whenever the payload has no `latest_receipt_info` key to alias. -/
theorem C2_normalize_degrades (raw : JValue) :
    (∀ doc, parseTry raw = Except.error doc →
      parse_notification raw = { raw_payload := doc, parsed := none }) ∧
    (∀ doc fl, parseTry raw = Except.ok (doc, fl) →
      parse_notification raw = { raw_payload := doc, parsed := some fl }) ∧
    (∀ d, raw = JValue.obj d → lookupJ d "latest_receipt_info" = none →
      (parse_notification raw).raw_payload = raw) := by
  refine ⟨?_, ?_, ?_⟩
  · intro doc hp
    simp [parse_notification, hp]
  · intro doc fl hp
    simp [parse_notification, hp]
  · rintro d rfl h
    have hE : extractRI d = (JValue.obj [], RILoc.fresh) := by
      simp [extractRI, h]
    simp only [parse_notification, parseTry, hE]
    cases hg : (lookupJ d "unified_receipt").getD (JValue.obj []) with
    | obj u =>
        simp only []
        by_cases ht : truthy ((lookupJ u "latest_receipt_info").getD
            (JValue.arr [JValue.obj []])) = true
        · rw [if_pos ht]
          generalize (match (lookupJ u "latest_receipt_info").getD
              (JValue.arr [JValue.obj []]) with
            | JValue.arr (x :: _) => x
            | v => v) = fi
          cases hm : pyUpdateM [] fi with
          | ok m => simp [hm, finishFields, writeBack]
          | fail mp => simp [hm, writeBack]
        · rw [if_neg ht]
          simp [finishFields]
    | null => rfl
    | bool b => rfl
    | num n => rfl
    | str s => rfl
    | arr xs => rfl

/-- C2 witness: a payload whose `latest_receipt_info` is a number (not
object or sequence) makes the `try` body raise before any merge, and
normalization degrades to the `raw_payload`-only record holding the
unchanged input. -/
theorem C2_normalize_degrades_witness :
    parse_notification rawMalformed =
      { raw_payload := rawMalformed, parsed := none } :=
  (C2_normalize_degrades rawMalformed).1 rawMalformed rfl

/-- C5 counterexample: the status resolver is not total on
notification-type values: for a list (or dict) `notification_type` —
reachable through the pipeline, since the normalizer copies the field
verbatim — `status_map.get` raises `TypeError` (unhashable key) instead
of returning `unknown` or any other status. -/
theorem C5_counterexample :
    determine_subscription_status (JValue.arr []) = Except.error () ∧
    determine_subscription_status (JValue.obj []) = Except.error () ∧
    (∀ s, determine_subscription_status (JValue.arr []) ≠ Except.ok s) :=
  ⟨rfl, rfl, fun _ h => Except.noConfusion h⟩

/-- C5 (corrected): the status resolver is deterministic and
side-effect-free, returns exactly the mapped statuses for the eight
codes, and `unknown` for every other hashable input — any other string
(including the empty string), `None` (the value read when the type is
absent), numbers and booleans; on an unhashable input (a list or dict)
`status_map.get` raises `TypeError` instead of returning a status. -/
theorem C5_status_resolver_values :
    determine_subscription_status (JValue.str "INITIAL_BUY") = Except.ok "active" ∧
    determine_subscription_status (JValue.str "RENEWAL") = Except.ok "active" ∧
    determine_subscription_status (JValue.str "INTERACTIVE_RENEWAL") = Except.ok "active" ∧
    determine_subscription_status (JValue.str "DID_RECOVER") = Except.ok "active" ∧
    determine_subscription_status (JValue.str "CANCEL") = Except.ok "cancelled" ∧
    determine_subscription_status (JValue.str "DID_FAIL_TO_RENEW") = Except.ok "expired" ∧
    determine_subscription_status (JValue.str "REFUND") = Except.ok "refunded" ∧
    determine_subscription_status (JValue.str "REVOKE") = Except.ok "revoked" ∧
    determine_subscription_status (JValue.str "") = Except.ok "unknown" ∧
    determine_subscription_status JValue.null = Except.ok "unknown" ∧
    (∀ s : String, s ∉ ["INITIAL_BUY", "RENEWAL", "INTERACTIVE_RENEWAL",
        "DID_RECOVER", "CANCEL", "DID_FAIL_TO_RENEW", "REFUND", "REVOKE"] →
      determine_subscription_status (JValue.str s) = Except.ok "unknown") ∧
    (∀ n : Int, determine_subscription_status (JValue.num n) = Except.ok "unknown") ∧
    (∀ b : Bool, determine_subscription_status (JValue.bool b) = Except.ok "unknown") ∧
    (∀ xs, determine_subscription_status (JValue.arr xs) = Except.error ()) ∧
    (∀ fs, determine_subscription_status (JValue.obj fs) = Except.error ()) := by
  refine ⟨rfl, rfl, rfl, rfl, rfl, rfl, rfl, rfl, rfl, rfl, ?_,
    fun n => rfl, fun b => rfl, fun xs => rfl, fun fs => rfl⟩
  intro s hs
  simp only [List.mem_cons, List.not_mem_nil, not_or, or_false] at hs
  obtain ⟨h1, h2, h3, h6, h4, h5, h7, h8⟩ := hs
  exact determine_default s h1 h2 h3 h4 h5 h6 h7 h8

/-- C5 witness: a real notification type outside the map resolves to
`unknown`. -/
theorem C5_status_resolver_values_witness :
    determine_subscription_status (JValue.str "DID_CHANGE_RENEWAL_STATUS") =
      Except.ok "unknown" :=
  C5_status_resolver_values.2.2.2.2.2.2.2.2.2.2.1
    "DID_CHANGE_RENEWAL_STATUS" (by decide)

/-- C9 (confirmed): the webhook relay never affects its caller: a
transport-level failure leaves the state untouched (in particular writes
no webhook-log row), an HTTP response (any status) appends exactly one
row with the body truncated to 1000 characters, and the boolean result of
`process_notification` is independent of the webhook outcome. -/
theorem C9_webhook_isolation (url : String) (nid : Nat) (st : AppState)
    (nd : NotificationRecord) :
    send_webhook url WebhookOutcome.transportFailure nid st = st ∧
    (∀ code text, (send_webhook url (WebhookOutcome.httpResponse code text) nid st) =
      { st with webhook_logs := st.webhook_logs ++
          [{ notification_id := nid, webhook_url := url, response_status := code,
             response_body := text.take 1000 }] }) ∧
    (∀ f cfg wh wh2,
      (process_notification f cfg wh st nd).2 =
        (process_notification f cfg wh2 st nd).2) := by
  refine ⟨rfl, fun code text => rfl, ?_⟩
  intro f cfg wh wh2
  obtain ⟨fs, fu⟩ := f
  cases fs <;> cases fu <;> cases h : truthy nd.getUserId <;>
    cases hdet : determine_subscription_status
      (nd.getF (fun x => x.notification_type)) <;>
    cases hw : cfg.webhook_url <;>
      simp [process_notification, processTry, Except.bind, h, hdet, hw]

/-- C9 witness: a transport failure on the webhook POST leaves the empty
state untouched. -/
theorem C9_webhook_isolation_witness :
    send_webhook "https://example.org/hook" WebhookOutcome.transportFailure 1
      emptyState = emptyState :=
  (C9_webhook_isolation "https://example.org/hook" 1 emptyState
    (parse_notification rawCancelNoAuto)).1

/-- C10 (confirmed): when `request.get_json()` raises or yields anything
but a dict, the `validate_receipt` route answers 500 with status `error`
(the `data.get` call raises into the catch-all); the 400 `invalid` answer
happens exactly for a dict body whose `receipt_data` is absent or falsy. -/
theorem C10_validate_receipt_paths :
    (∀ vres, validate_receipt (Except.error ()) vres = (500, RespStatus.vrError)) ∧
    (∀ v vres, (∀ fs, v ≠ JValue.obj fs) →
      validate_receipt (Except.ok v) vres = (500, RespStatus.vrError)) ∧
    (∀ fs vres, truthy ((lookupJ fs "receipt_data").getD JValue.null) = false →
      validate_receipt (Except.ok (JValue.obj fs)) vres = (400, RespStatus.invalid)) ∧
    (∀ gj vres stat, validate_receipt gj vres = (400, stat) →
      ∃ fs, gj = Except.ok (JValue.obj fs) ∧
        truthy ((lookupJ fs "receipt_data").getD JValue.null) = false) := by
  refine ⟨fun vres => rfl, ?_, ?_, ?_⟩
  · intro v vres h
    cases v with
    | obj fs => exact absurd rfl (h fs)
    | null => rfl
    | bool b => rfl
    | num n => rfl
    | str s => rfl
    | arr xs => rfl
  · intro fs vres h
    simp [validate_receipt, validateReceiptTry, Except.bind, pyGet_obj, h]
  · intro gj vres stat h
    cases gj with
    | error e =>
        simp [validate_receipt, validateReceiptTry, Except.bind] at h
    | ok v =>
        cases v with
        | obj fs =>
            refine ⟨fs, rfl, ?_⟩
            cases ht : truthy ((lookupJ fs "receipt_data").getD JValue.null) with
            | false => rfl
            | true =>
                simp [validate_receipt, validateReceiptTry, Except.bind,
                  pyGet_obj, ht] at h
        | null => simp [validate_receipt, validateReceiptTry, Except.bind, pyGet] at h
        | bool b => simp [validate_receipt, validateReceiptTry, Except.bind, pyGet] at h
        | num n => simp [validate_receipt, validateReceiptTry, Except.bind, pyGet] at h
        | str s => simp [validate_receipt, validateReceiptTry, Except.bind, pyGet] at h
        | arr xs => simp [validate_receipt, validateReceiptTry, Except.bind, pyGet] at h

/-- C10 witness: a dict body without `receipt_data` gets the 400, a
non-dict body gets the 500. -/
theorem C10_validate_receipt_paths_witness :
    validate_receipt (Except.ok (JValue.obj [("x", JValue.num 1)])) JValue.null =
      (400, RespStatus.invalid) ∧
    validate_receipt (Except.ok (JValue.arr [])) JValue.null =
      (500, RespStatus.vrError) :=
  ⟨C10_validate_receipt_paths.2.2.1 [("x", JValue.num 1)] JValue.null rfl,
   C10_validate_receipt_paths.2.1 (JValue.arr []) JValue.null
     (fun _ hfs => JValue.noConfusion hfs)⟩

/-- C1 counterexample: with a record bearing a truthy `user_id`, a
subscription-upsert failure after a successful notification-log write
makes `process_notification` return failure, even though the log row was
durably written — the single `try/except` of the source spans both
writes, so step 2 is not isolated as claimed. -/
theorem C1_counterexample :
    (process_notification { storeFails := false, upsertFails := true }
      cfgNoWebhook WebhookOutcome.transportFailure emptyState
      (parse_notification rawCancelNoAuto)).2 = false ∧
    (process_notification { storeFails := false, upsertFails := true }
      cfgNoWebhook WebhookOutcome.transportFailure emptyState
      (parse_notification rawCancelNoAuto)).1.notifications.length = 1 :=
  ⟨rfl, rfl⟩

/-- C1 (corrected): `process_notification` returns success iff the
notification-log write succeeds and, when the record bears a truthy
`user_id`, the status resolution does not raise (the `notification_type`
is hashable) and the subscription upsert succeeds as well; only the
webhook step is isolated. -/
theorem C1_success_iff (f : DbFaults) (cfg : ServerConfig)
    (wh : WebhookOutcome) (st : AppState) (nd : NotificationRecord) :
    (process_notification f cfg wh st nd).2 = true ↔
      (f.storeFails = false ∧
        (truthy nd.getUserId = true →
          (∃ s, determine_subscription_status
            (nd.getF (fun x => x.notification_type)) = Except.ok s) ∧
          f.upsertFails = false)) := by
  obtain ⟨fs, fu⟩ := f
  cases fs <;> cases fu <;> cases h : truthy nd.getUserId <;>
    cases hdet : determine_subscription_status
      (nd.getF (fun x => x.notification_type)) <;>
    cases hw : cfg.webhook_url <;>
      simp [process_notification, processTry, Except.bind, h, hdet, hw]

/-- C1 witness: a fault-free run on the CANCEL scenario record succeeds. -/
theorem C1_success_iff_witness :
    (process_notification noFaults cfgNoWebhook WebhookOutcome.transportFailure
      emptyState (parse_notification rawCancelNoAuto)).2 = true :=
  (C1_success_iff noFaults cfgNoWebhook WebhookOutcome.transportFailure
    emptyState (parse_notification rawCancelNoAuto)).mpr
    ⟨rfl, fun _ => ⟨⟨"cancelled", rfl⟩, rfl⟩⟩

/-- C3 (confirmed): when a payload carries both a shape-(1)
`latest_receipt_info` and a shape-(2) `unified_receipt.latest_receipt_info`,
every receipt-derived field of the normalized record comes from the
field-by-field overlay in which a field present in shape (2) wins and a
field present only in shape (1) is kept. -/
theorem C3_shape2_overlay (d u : List (String × JValue)) (lri li : JValue)
    (r1 r2 : List (String × JValue))
    (h1 : lookupJ d "latest_receipt_info" = some lri)
    (hs1 : isReceiptShape lri r1)
    (h2 : lookupJ d "unified_receipt" = some (JValue.obj u))
    (h3 : lookupJ u "latest_receipt_info" = some li)
    (hs2 : isReceiptShape li r2) :
    (parse_notification (JValue.obj d)).parsed.isSome = true ∧
    (parse_notification (JValue.obj d)).getF (fun f => f.transaction_id) =
      mergedField r1 r2 "transaction_id" ∧
    (parse_notification (JValue.obj d)).getF (fun f => f.original_transaction_id) =
      mergedField r1 r2 "original_transaction_id" ∧
    (parse_notification (JValue.obj d)).getF (fun f => f.product_id) =
      mergedField r1 r2 "product_id" ∧
    (parse_notification (JValue.obj d)).getF (fun f => f.expires_date) =
      mergedField r1 r2 "expires_date_ms" ∧
    (parse_notification (JValue.obj d)).getF (fun f => f.purchase_date) =
      mergedField r1 r2 "purchase_date_ms" ∧
    (parse_notification (JValue.obj d)).getF (fun f => f.cancellation_date) =
      mergedField r1 r2 "cancellation_date_ms" ∧
    (∀ k v, lookupJ r2 k = some v → mergedField r1 r2 k = v) ∧
    (∀ k, lookupJ r2 k = none →
      mergedField r1 r2 k = (lookupJ r1 k).getD JValue.null) := by
  obtain ⟨doc, hp⟩ := parseTry_shapes d lri r1 r2 h1 hs1 (Or.inr ⟨u, li, h2, h3, hs2⟩)
  refine ⟨by simp [parse_notification, hp],
    by simp [parse_notification, hp, NotificationRecord.getF],
    by simp [parse_notification, hp, NotificationRecord.getF],
    by simp [parse_notification, hp, NotificationRecord.getF],
    by simp [parse_notification, hp, NotificationRecord.getF],
    by simp [parse_notification, hp, NotificationRecord.getF],
    by simp [parse_notification, hp, NotificationRecord.getF], ?_, ?_⟩
  · intro k v hk
    simp [mergedField, overlayLookup, hk]
  · intro k hk
    simp [mergedField, overlayLookup, hk]

/-- C3 witness: in the two-shape scenario payload the overlapping
`product_id` resolves to the shape-(2) value and the shape-(1)-only
`transaction_id` is kept. -/
theorem C3_shape2_overlay_witness :
    (parse_notification (JValue.obj rawBothShapes)).getF (fun f => f.product_id) =
      mergedField shape1Fields shape2Fields "product_id" ∧
    mergedField shape1Fields shape2Fields "product_id" = JValue.str "Pnew" ∧
    (parse_notification (JValue.obj rawBothShapes)).getF (fun f => f.transaction_id) =
      mergedField shape1Fields shape2Fields "transaction_id" ∧
    mergedField shape1Fields shape2Fields "transaction_id" = JValue.str "T1" := by
  have h := C3_shape2_overlay rawBothShapes
    [("latest_receipt_info", JValue.arr [JValue.obj shape2Fields])]
    (JValue.obj shape1Fields) (JValue.arr [JValue.obj shape2Fields])
    shape1Fields shape2Fields rfl (Or.inl rfl) rfl rfl (Or.inr ⟨[], rfl⟩)
  exact ⟨h.2.2.2.1, rfl, h.2.1, rfl⟩

/-- C4 (confirmed): for a well-formed payload the normalizer sets
`user_id` to the receipt-info `web_order_line_item_id` when that value is
truthy (for strings: non-empty), else to `app_account_token` when that is
truthy, else leaves it falsy (absent). -/
theorem C4_user_id_fallback (d : List (String × JValue)) (lri : JValue)
    (r1 r2 : List (String × JValue))
    (h1 : lookupJ d "latest_receipt_info" = some lri)
    (hs1 : isReceiptShape lri r1)
    (hu : (lookupJ d "unified_receipt" = none ∧ r2 = []) ∨
      (∃ u li, lookupJ d "unified_receipt" = some (JValue.obj u) ∧
        lookupJ u "latest_receipt_info" = some li ∧ isReceiptShape li r2)) :
    (truthy (mergedField r1 r2 "web_order_line_item_id") = true →
      (parse_notification (JValue.obj d)).getUserId =
        mergedField r1 r2 "web_order_line_item_id") ∧
    (truthy (mergedField r1 r2 "web_order_line_item_id") = false →
      truthy (mergedField r1 r2 "app_account_token") = true →
      (parse_notification (JValue.obj d)).getUserId =
        mergedField r1 r2 "app_account_token") ∧
    (truthy (mergedField r1 r2 "web_order_line_item_id") = false →
      truthy (mergedField r1 r2 "app_account_token") = false →
      truthy (parse_notification (JValue.obj d)).getUserId = false) := by
  obtain ⟨doc, hp⟩ := parseTry_shapes d lri r1 r2 h1 hs1 hu
  refine ⟨fun hw => ?_, fun hw ha => ?_, fun hw ha => ?_⟩ <;>
    simp [parse_notification, hp, NotificationRecord.getUserId,
      NotificationRecord.getF, pyOr, hw]
  · simp [ha]

/-- C4 witness: the CANCEL scenario payload has no
`web_order_line_item_id`, so `user_id` falls back to the truthy
`app_account_token`. -/
theorem C4_user_id_fallback_witness :
    (parse_notification rawCancelNoAuto).getUserId =
      mergedField cancelReceiptFields [] "app_account_token" ∧
    mergedField cancelReceiptFields [] "app_account_token" = JValue.str "U1" := by
  have h := C4_user_id_fallback rawCancelFields
    (JValue.arr [JValue.obj cancelReceiptFields]) cancelReceiptFields []
    rfl (Or.inr ⟨[], rfl⟩) (Or.inl ⟨rfl, rfl⟩)
  exact ⟨h.2.1 rfl rfl, rfl⟩

/-- C6 counterexample: a request whose `password` field is the empty
string — present and different from the configured secret `"bomboclat"` —
is not rejected: the source guards the comparison with a truthiness test,
so the request proceeds, answers 200 `ok`, and a notification row is
written. -/
theorem C6_counterexample :
    (receive_notification cfgNoWebhook noFaults WebhookOutcome.transportFailure
      emptyState (Except.ok bodyEmptyPw)).2.1 = 200 ∧
    (receive_notification cfgNoWebhook noFaults WebhookOutcome.transportFailure
      emptyState (Except.ok bodyEmptyPw)).2.2 = RespStatus.ok ∧
    (receive_notification cfgNoWebhook noFaults WebhookOutcome.transportFailure
      emptyState (Except.ok bodyEmptyPw)).1.notifications.length = 1 ∧
    ("" : String) ≠ cfgNoWebhook.shared_secret :=
  ⟨rfl, rfl, rfl, by decide⟩

/-- C6 (corrected): a 403 `invalid_shared_secret` with no state change
happens exactly when the `password` field is present, truthy, and
different from the configured secret; a present-but-falsy password is
treated as absent. -/
theorem C6_mismatched_secret (cfg : ServerConfig) (f : DbFaults)
    (wh : WebhookOutcome) (st : AppState) (d : List (String × JValue))
    (pw : JValue)
    (hpw : lookupJ d "password" = some pw)
    (ht : truthy pw = true)
    (hne : pyEqStr pw cfg.shared_secret = false) :
    receive_notification cfg f wh st (Except.ok (JValue.obj d)) =
      (st, 403, RespStatus.invalidSharedSecret) := by
  have hd : d ≠ [] := by
    intro h
    rw [h] at hpw
    simp [lookupJ] at hpw
  have htd : truthy (JValue.obj d) = true := by
    cases d with
    | nil => exact absurd rfl hd
    | cons p l => simp [truthy]
  simp [receive_notification, receiveTry, Except.bind, htd, pyGet_obj,
    hpw, ht, hne]

/-- C6 witness: a truthy wrong password is rejected with 403 and the
state is unchanged. -/
theorem C6_mismatched_secret_witness :
    receive_notification cfgNoWebhook noFaults WebhookOutcome.transportFailure
      emptyState (Except.ok (JValue.obj [("password", JValue.str "wrong")])) =
      (emptyState, 403, RespStatus.invalidSharedSecret) :=
  C6_mismatched_secret cfgNoWebhook noFaults WebhookOutcome.transportFailure
    emptyState [("password", JValue.str "wrong")] (JValue.str "wrong")
    rfl rfl rfl

/-- C8 (confirmed): processing a record with a truthy `user_id` twice
appends two notification rows with distinct autoincrement ids, while the
subscription snapshot for that user after the second run equals the one
after a single run (also when the resolver raises and no snapshot is ever
written); when the record's status resolves, the upsert fully replaces
the row keyed by the unique `user_id` — the stored snapshot does not
depend on the prior state at all. -/
theorem C8_reprocess_idempotent (cfg : ServerConfig) (wh wh2 : WebhookOutcome)
    (st : AppState) (nd : NotificationRecord)
    (h : truthy nd.getUserId = true) :
    (process_notification noFaults cfg wh2
        (process_notification noFaults cfg wh st nd).1 nd).1.notifications =
      st.notifications ++
        [mkStoredRow st.nextId nd, mkStoredRow (st.nextId + 1) nd] ∧
    mkStoredRow st.nextId nd ≠ mkStoredRow (st.nextId + 1) nd ∧
    get_user_subscription (process_notification noFaults cfg wh2
        (process_notification noFaults cfg wh st nd).1 nd).1 nd.getUserId =
      get_user_subscription (process_notification noFaults cfg wh st nd).1
        nd.getUserId ∧
    (∀ s, determine_subscription_status
        (nd.getF (fun x => x.notification_type)) = Except.ok s →
      ∀ st2 : AppState, get_user_subscription
        (process_notification noFaults cfg wh2 st2 nd).1 nd.getUserId =
      some (mkUserData nd s)) := by
  obtain ⟨hnot1, hnext1⟩ := process_noFaults_log cfg wh st nd
  obtain ⟨hnot2, hnext2⟩ := process_noFaults_log cfg wh2
    (process_notification noFaults cfg wh st nd).1 nd
  refine ⟨?_, ?_, ?_, fun s hdet st2 =>
    (process_noFaults_upsert cfg wh2 st2 nd s h hdet).2⟩
  · rw [hnot2, hnot1, hnext1, List.append_assoc]
    rfl
  · intro he
    have hid := congrArg StoredNotification.id he
    simp [mkStoredRow] at hid
  · cases hdet : determine_subscription_status
      (nd.getF (fun x => x.notification_type)) with
    | ok s =>
        rw [(process_noFaults_upsert cfg wh2
            (process_notification noFaults cfg wh st nd).1 nd s h hdet).2,
          (process_noFaults_upsert cfg wh st nd s h hdet).2]
    | error e =>
        unfold get_user_subscription
        rw [process_noFaults_subs_untouched cfg wh2
            (process_notification noFaults cfg wh st nd).1 nd (Or.inr hdet),
          process_noFaults_subs_untouched cfg wh st nd (Or.inr hdet)]

/-- C8 witness: the double-run property at the CANCEL scenario record. -/
theorem C8_reprocess_idempotent_witness :
    get_user_subscription
      (process_notification noFaults cfgNoWebhook WebhookOutcome.transportFailure
        emptyState (parse_notification rawCancelNoAuto)).1
      (parse_notification rawCancelNoAuto).getUserId =
    some (mkUserData (parse_notification rawCancelNoAuto) "cancelled") :=
  (C8_reprocess_idempotent cfgNoWebhook WebhookOutcome.transportFailure
    WebhookOutcome.transportFailure emptyState
    (parse_notification rawCancelNoAuto) rfl).2.2.2 "cancelled" rfl emptyState

end IAP
